import Mathlib

/-!
Shallow embedding of the 0816 feeder tuner sources (feeder.py,
feeder_tweaker.py, feeder_tuner.py, feeder_controller.py, parse.py).
Python integers are modelled as Int, Python `%` on integers as Lean's
Int emod (both give a result in [0, b) for a positive modulus b),
Python values that may be None/bool/int/str as the PyVal type, and
fallible code as Except / Option.  Definitions follow the source files;
the one spec-side definition (angleApplySpec) is clearly marked.
-/

/-- A Python value as it appears in the feeder data model and its JSON
persistence: None, a bool, an int, or a string.  (The numeric literals in
these sources are integers.) -/
inductive PyVal where
  | none
  | bool (b : Bool)
  | int (n : Int)
  | str (s : String)
deriving DecidableEq, Repr

/-- Python exceptions raised by the embedded code paths. -/
inductive PyErr where
  | valueError
  | typeError
  | indexError
  | stopIteration
  | nameError
  | attributeError
deriving DecidableEq, Repr

/-- Value of a nonempty all-digit character list, most significant first. -/
def digitsVal : List Char → Nat → Nat
  | [], acc => acc
  | c :: cs, acc => digitsVal cs (acc * 10 + (c.toNat - '0'.toNat))

/-- Parse a character list as a nonempty run of decimal digits. -/
def parseDigits (cs : List Char) : Option Nat :=
  if cs ≠ [] ∧ cs.all Char.isDigit then Option.some (digitsVal cs 0) else Option.none

/-- Split a character list at every character satisfying p, keeping empty
groups, as Python str.split does with an explicit separator. -/
def charSplitP (p : Char → Bool) : List Char → List (List Char)
  | [] => [[]]
  | c :: cs =>
      if p c then [] :: charSplitP p cs
      else
        match charSplitP p cs with
        | [] => [[c]]
        | g :: gs => (c :: g) :: gs

/-- Python `s.split(sep)` for a one-character separator (the only separators
these sources use are ":", "N" and the newline). -/
def pySplitOnChar (sep : Char) (s : String) : List String :=
  (charSplitP (fun c => c = sep) s.data).map String.mk

/-- Python `s.split()` with no argument: split on whitespace runs, dropping
empty fragments. -/
def pySplit (s : String) : List String :=
  ((charSplitP Char.isWhitespace s.data).filter (fun g => g ≠ [])).map String.mk

/-- Python `s.strip()`: remove leading and trailing whitespace. -/
def pyStrip (s : String) : String :=
  String.mk (((s.data.dropWhile Char.isWhitespace).reverse.dropWhile
    Char.isWhitespace).reverse)

/-- Python `s.startswith(pre)` for one candidate. -/
def pyStartsWith (s pre : String) : Bool := pre.data.isPrefixOf s.data

/-- Python slicing `s[n:]` (character based). -/
def pyDrop (s : String) (n : Nat) : String := String.mk (s.data.drop n)

/-- Take the longest prefix of characters satisfying p. -/
def pyTakeWhile (p : Char → Bool) (s : String) : String :=
  String.mk (s.data.takeWhile p)

/-- Python `int(s)` on a string: surrounding whitespace stripped, an optional
single sign, then a nonempty run of digits; anything else raises ValueError
(modelled as Option.none).  Digit-group underscores are not modelled; no input
in this repository contains them. -/
def pyInt? (s : String) : Option Int :=
  match (pyStrip s).data with
  | '+' :: rest => (parseDigits rest).map (fun n => (n : Int))
  | '-' :: rest => (parseDigits rest).map (fun n => -(n : Int))
  | cs => (parseDigits cs).map (fun n => (n : Int))

/-- Python dict assignment `d[k] = v` on an insertion-ordered dict modelled as
an association list: overwrite in place if the key exists, else append. -/
def assocSet {α β : Type} [DecidableEq α] : List (α × β) → α → β → List (α × β)
  | [], k, v => [(k, v)]
  | (k', v') :: rest, k, v =>
      if k' = k then (k, v) :: rest else (k', v') :: assocSet rest k v

/-- Outcome of Feeder.adjust_angle in feeder.py (lines 147-165). -/
inductive AngleOutcome where
  /-- The normalized angle is returned. -/
  | ok (angle : Int)
  /-- int() raised ValueError; the except clause prints a message and the
  method returns None. -/
  | invalidCaught
  /-- Uncaught TypeError: the absolute branch evaluates the raw string in
  `_new_angle % 360` (str.__mod__ with an int argument), which raises
  TypeError for a string without a % conversion specifier; only ValueError
  is caught. -/
  | typeError
  /-- str % int where the instruction contains a % character would instead
  attempt printf-style formatting; no jog-mode input contains %, so this
  path is kept abstract. -/
  | percentFormat
deriving DecidableEq, Repr

/-- Feeder.adjust_angle from feeder.py lines 147-165.  `current_angle` is the
instance's _current_angle (None until first use, then initialized to 180
before the try block). -/
def Feeder.adjust_angle (current_angle : Option Int) (new_angle : String) : AngleOutcome :=
  let cur := current_angle.getD 180
  if pyStartsWith new_angle "+" ∨ pyStartsWith new_angle "-" then
    -- relative move: _relative_adjustment = int(_new_angle)
    match pyInt? new_angle with
    | Option.some d => AngleOutcome.ok ((cur + d) % 360)
    | Option.none => AngleOutcome.invalidCaught
  else
    -- absolute move: _normalize_angle(_new_angle) computes `_new_angle % 360`
    -- with _new_angle still a str, so str.__mod__ runs instead of integer
    -- arithmetic
    if new_angle.data.contains '%' then AngleOutcome.percentFormat
    else AngleOutcome.typeError

/-- Parse failure of the spec's AngleValue.apply. -/
inductive ParseError where
  | notANumber
deriving DecidableEq, Repr

/-- Specification-side definition, following the words of spec section 4.1:
if the instruction starts with + or -, parse the remainder as a signed
integer and add it (with the sign) to the current angle, then normalize into
[0,360); otherwise parse the whole string as an absolute angle and normalize;
fail with ParseError.notANumber on a non-numeric remainder.  Used only to
compare the source's angle-adjusting code against the spec. -/
def angleApplySpec (current : Int) (instruction : String) : Except ParseError Int :=
  if pyStartsWith instruction "+" then
    match pyInt? (pyDrop instruction 1) with
    | Option.some d => Except.ok ((current + d) % 360)
    | Option.none => Except.error ParseError.notANumber
  else if pyStartsWith instruction "-" then
    match pyInt? (pyDrop instruction 1) with
    | Option.some d => Except.ok ((current - d) % 360)
    | Option.none => Except.error ParseError.notANumber
  else
    match pyInt? instruction with
    | Option.some a => Except.ok (a % 360)
    | Option.none => Except.error ParseError.notANumber

/-- Outcome of send_command in feeder_tweaker.py (lines 133-155).  The
serial_port global is modelled as Option Bool: Option.none when simulating
(no port), Option.some isOpen otherwise. -/
inductive TweakerSend where
  /-- serial_port is None: prints "No serial port defined. Simulating." -/
  | simulating
  /-- The check `elif serial_port.is_open:` is inverted, so an OPEN port
  prints "Serial port not open." and returns without sending. -/
  | notOpenMsg
  /-- Port exists but is closed: the write raises SerialException, caught
  and printed.  No branch of this function ever delivers a command. -/
  | serialFailed
deriving DecidableEq, Repr

/-- send_command from feeder_tweaker.py lines 133-155 (the response callback
only prints, so no state beyond the outcome is produced). -/
def tweaker_send_command (serial_port : Option Bool) (command : String) : TweakerSend :=
  match serial_port with
  | Option.none => TweakerSend.simulating
  | Option.some isOpen =>
      if isOpen then TweakerSend.notOpenMsg else TweakerSend.serialFailed

/-- The mutable module globals of feeder_tweaker.py used by adjust_angle. -/
structure TweakerState where
  current_angle : Option Int
  feeder_address : Option String
deriving DecidableEq, Repr

/-- Result channel of adjust_angle in feeder_tweaker.py. -/
inductive TweakerAdjust where
  /-- The M603 command was passed to send_command with this outcome. -/
  | sent (s : TweakerSend)
  /-- int() raised ValueError, caught; a message is printed. -/
  | invalidCaught
deriving DecidableEq, Repr

/-- Python f-string rendering of an optional string (None prints "None"). -/
def pyOptionStr (v : Option String) : String := v.getD "None"

/-- adjust_angle from feeder_tweaker.py lines 288-306.  The global
_current_angle is initialized to 180 if None, then overwritten with the new
normalized angle BEFORE send_command is invoked; the transport outcome never
influences the stored angle. -/
def adjust_angle (st : TweakerState) (input_str : String) (serial_port : Option Bool) :
    TweakerState × TweakerAdjust :=
  let cur := st.current_angle.getD 180
  let st0 : TweakerState := { st with current_angle := Option.some cur }
  if pyStartsWith input_str "+" ∨ pyStartsWith input_str "-" then
    match pyInt? input_str with
    | Option.some d =>
        let na := (cur + d) % 360
        let st1 : TweakerState := { st0 with current_angle := Option.some na }
        (st1, TweakerAdjust.sent (tweaker_send_command serial_port
          ("M603N" ++ pyOptionStr st.feeder_address ++ "A" ++ toString na)))
    | Option.none => (st0, TweakerAdjust.invalidCaught)
  else
    match pyInt? input_str with
    | Option.some a =>
        let na := a % 360
        let st1 : TweakerState := { st0 with current_angle := Option.some na }
        (st1, TweakerAdjust.sent (tweaker_send_command serial_port
          ("M603N" ++ pyOptionStr st.feeder_address ++ "A" ++ toString na)))
    | Option.none => (st0, TweakerAdjust.invalidCaught)

/-- The feeder_enabled session flag of FeederControl in feeder_tuner.py. -/
structure TunerState where
  feeder_enabled : Bool
deriving DecidableEq, Repr

/-- enable_disable_feeders from feeder_tuner.py lines 230-237.
handle_ok_response is defined only as a class attribute inside FeederControl
(line 200), so the bare name in either branch's argument list
`feeder_control.send_command("M611 S1", handle_ok_response)` — resolved
local → enclosing → global → builtins — raises NameError while the arguments
are being evaluated: nothing is sent, and the assignment
`feeder_control.feeder_enabled = enable` on the following line never runs.
The result pairs the raised exception with the (unchanged) global state. -/
def enable_disable_feeders (st : TunerState) (enable : Bool) :
    Option PyErr × TunerState :=
  if ¬st.feeder_enabled then
    -- send_command("M611 S1", handle_ok_response): NameError before the call
    (Option.some PyErr.nameError, st)
  else
    -- send_command("M611 S0", handle_ok_response): NameError before the call
    (Option.some PyErr.nameError, st)

/-- BoardPosition from feeder_controller.py lines 8-46.  `enabled` is the
private _enabled backing field of the property. -/
structure BoardPosition where
  current_angle : PyVal
  advance_angle : PyVal
  half_advance_angle : PyVal
  retract_angle : PyVal
  default_feed_length : PyVal
  settle_time : PyVal
  enabled : Bool
  feeder_id : PyVal
deriving DecidableEq, Repr

/-- BoardPosition.__init__ from feeder_controller.py lines 11-21.  Line 21 is
`self.feeder_id = None`: the feeder_id argument is accepted and discarded. -/
def BoardPosition.init (advance_angle half_advance_angle retract_angle
    default_feed_length settle_time : PyVal) (enabled : Bool) (feeder_id : PyVal) :
    BoardPosition :=
  { current_angle := PyVal.none
    advance_angle := advance_angle
    half_advance_angle := half_advance_angle
    retract_angle := retract_angle
    default_feed_length := default_feed_length
    settle_time := settle_time
    enabled := enabled
    feeder_id := PyVal.none }

/-- The enabled property setter from feeder_controller.py lines 38-46.
BoardPosition defines no send_command (or handle_response) attribute, so in
either armed branch the lookup of `self.send_command` raises AttributeError
before "M610S1" or "M610S0" could be sent and before `self._enabled` could be
assigned; a non-bool value fails the isinstance guard and the setter silently
does nothing.  The result pairs the raised exception, if any, with the
(unchanged) position. -/
def BoardPosition.enabled_setter (pos : BoardPosition) (value : PyVal) :
    Option PyErr × BoardPosition :=
  match value with
  | PyVal.bool b =>
      if b ∧ ¬pos.enabled then
        -- if self.send_command("M610S1", self.handle_response):
        (Option.some PyErr.attributeError, pos)
      else
        -- if self.send_command("M610S0", self.handle_response):
        (Option.some PyErr.attributeError, pos)
  | _ => (Option.none, pos)

/-- One position entry of the persisted controller-topology JSON: the
position_data dict whose fields are read with .get and a default. -/
structure PositionConfig where
  feeder_id : Option PyVal := Option.none
  advance_angle : Option PyVal := Option.none
  half_advance_angle : Option PyVal := Option.none
  retract_angle : Option PyVal := Option.none
  default_feed_length : Option PyVal := Option.none
  settle_time : Option PyVal := Option.none
deriving DecidableEq, Repr

/-- FeederBoard from feeder_controller.py lines 49-64. -/
structure FeederBoard where
  positions : List (Int × BoardPosition)
deriving DecidableEq, Repr

/-- The loop body of FeederBoard.__init__: build BoardPosition values from
board_config["positions"].items(), converting each JSON key with int() and
filling absent fields with the documented defaults (feeder_id None,
advance 120, half 60, retract 45, feed length 4, settle 200). -/
def feederBoardPositions : List (String × PositionConfig) →
    Except PyErr (List (Int × BoardPosition))
  | [] => Except.ok []
  | (position_id, position_data) :: rest =>
      match pyInt? position_id with
      | Option.none => Except.error PyErr.valueError
      | Option.some n =>
          (feederBoardPositions rest).map (fun tail =>
            (n, BoardPosition.init
              (position_data.advance_angle.getD (PyVal.int 120))
              (position_data.half_advance_angle.getD (PyVal.int 60))
              (position_data.retract_angle.getD (PyVal.int 45))
              (position_data.default_feed_length.getD (PyVal.int 4))
              (position_data.settle_time.getD (PyVal.int 200))
              false
              (position_data.feeder_id.getD PyVal.none)) :: tail)

/-- FeederBoard.__init__ from feeder_controller.py lines 54-64, taking the
"positions" entry of the board_config dict. -/
def FeederBoard.init (position_entries : List (String × PositionConfig)) :
    Except PyErr FeederBoard :=
  (feederBoardPositions position_entries).map (fun ps => { positions := ps })

/-- Observable outcome of FeederController.send_command in
feeder_controller.py (lines 155-178); every path returns None in Python, so
the outcome is which branch ran. -/
inductive SendOutcome where
  /-- Port missing or closed: prints "Serial port not open." and returns. -/
  | notOpen
  /-- SerialException during write/read, caught and logged. -/
  | serialException
  /-- Empty response after strip: logs "No response received before
  timeout." -/
  | timeoutWarning
  /-- A callback registered for this exact command string was invoked. -/
  | registeredCallback (response : String)
  /-- generic_callback was invoked with the response. -/
  | genericHandled (response : String)
deriving DecidableEq, Repr

/-- The response_type=None arm of FeederController.generic_callback (lines
200-207): "ok" prefix logs success and returns True, "error" prefix logs
failure and returns False, anything else returns None. -/
def generic_callback (response : String) : Option Bool :=
  if response.startsWith "ok" then Option.some true
  else if response.startsWith "error" then Option.some false
  else Option.none

/-- FeederController.send_command from feeder_controller.py lines 155-178.
`raw` is readline().decode('utf-8') — "" when no bytes arrived before the
configured timeout; the code strips it, dispatches a nonempty response to a
registered or generic callback, and logs a timeout warning otherwise. -/
def FeederController.send_command (portOpen writeOk registered : Bool)
    (raw : String) (command : String) : SendOutcome :=
  if ¬portOpen then SendOutcome.notOpen
  else if ¬writeOk then SendOutcome.serialException
  else
    let response := pyStrip raw
    if response ≠ "" then
      if registered then SendOutcome.registeredCallback response
      else SendOutcome.genericHandled response
    else SendOutcome.timeoutWarning

/-- An outcome counts as a confirmed success exactly when the generic
classifier saw an "ok"-prefixed response (the only place the code logs
"Command successful." / returns True). -/
def SendOutcome.isSuccess : SendOutcome → Bool
  | SendOutcome.genericHandled r => generic_callback r == Option.some true
  | _ => false

/-- One position record produced by parse_m621_output: the raw single-letter
param_code captured by the regex group ([A-Z]) and the whitespace-split
remainder of the line as param_value. -/
structure PosEntry where
  param_code : Char
  param_value : List String
deriving DecidableEq, Repr

/-- The current_board dict of parse_m621_output.  Both keys are optional
because the code starts from an empty dict; the dict is falsy exactly when
both are absent. -/
structure M621Board where
  board_id : Option Int
  positions : Option (List (Nat × PosEntry))
deriving DecidableEq, Repr

/-- Python truthiness of the current_board dict: empty iff no key present. -/
def M621Board.isEmptyDict (b : M621Board) : Bool :=
  b.board_id.isNone && b.positions.isNone

/-- The regex r"^M620 N(\d+) ([A-Z])(.*)$" used by parse_m621_output, applied
with re.match: literal "M620 N", a maximal nonempty digit run, a space, one
uppercase letter, and the rest of the line. -/
def matchM620 (line : String) : Option (Nat × Char × String) :=
  if pyStartsWith line "M620 N" then
    let rest := pyDrop line 6
    let ds := pyTakeWhile Char.isDigit rest
    match parseDigits ds.data with
    | Option.none => Option.none
    | Option.some n =>
        let rest2 := pyDrop rest ds.length
        if pyStartsWith rest2 " " then
          match (pyDrop rest2 1).data with
          | c :: _ =>
              if 'A' ≤ c ∧ c ≤ 'Z' then Option.some (n, c, pyDrop rest2 2)
              else Option.none
          | [] => Option.none
        else Option.none
  else Option.none

/-- The line loop of parse_m621_output (parse.py lines 56-77), threading the
current_board accumulator and the boards list.  parse.py never imports re, so
the re.match call on an M620 line would actually raise NameError at runtime;
the regex itself is modelled here (matchM620) so the rest of the function can
be evaluated. -/
def m621Go : List String → M621Board → List M621Board → Except PyErr (List M621Board)
  | [], _current_board, boards => Except.ok boards
  | line :: rest, current_board, boards =>
      if pyStartsWith line "BoardAddr:" then
        let boards' := if current_board.isEmptyDict then boards else boards ++ [current_board]
        match (pySplitOnChar ':' line).drop 1 with
        | [] => Except.error PyErr.indexError
        | second :: _ =>
            match pyInt? second with
            | Option.none => Except.error PyErr.valueError
            | Option.some n =>
                m621Go rest { board_id := Option.some n, positions := Option.none } boards'
      else if pyStartsWith line "ok" then
        let boards' := if current_board.isEmptyDict then boards else boards ++ [current_board]
        m621Go rest { board_id := Option.none, positions := Option.none } boards'
      else if pyStartsWith line "M620" then
        match matchM620 line with
        | Option.some (position, param_code, tail) =>
            let entry : PosEntry := { param_code := param_code, param_value := pySplit tail }
            let ps := assocSet (current_board.positions.getD []) position entry
            m621Go rest { current_board with positions := Option.some ps } boards
        | Option.none => m621Go rest current_board boards
      else
        m621Go rest current_board boards

/-- parse_m621_output from parse.py lines 43-79.  splitlines is modelled as
splitting on newline; the inputs considered have no trailing newline, where
the two agree. -/
def parse_m621_output (data : String) : Except PyErr (List M621Board) :=
  m621Go (pySplitOnChar '\n' data) { board_id := Option.none, positions := Option.none } []

/-- The param_names list of parse_m620_lines (parse.py lines 20-22). -/
def m620ParamNames : List String :=
  ["advance_angle", "half_advance_angle", "retract_angle", "feed_length",
   "settle_time", "pulsewidth_at_0", "pulsewidth_at_180", "ignore_feedback_pin"]

/-- Python float(value) restricted to the token shapes these claims exercise:
integer literals parse (to their integral value) and letter-prefixed tokens
such as "A180" raise ValueError, exactly as float() does on them. -/
def pyFloatInt? (s : String) : Option Int := pyInt? s

/-- The dict comprehension of parse.py line 23: zip param names with the
first tokens and call float on each value, left to right; the first failure
raises ValueError. -/
def zipFloats : List String → List String → Except PyErr (List (String × PyVal))
  | [], _ => Except.ok []
  | _ :: _, [] => Except.ok []
  | name :: names, v :: vs =>
      match pyFloatInt? v with
      | Option.none => Except.error PyErr.valueError
      | Option.some x =>
          (zipFloats names vs).map (fun tail => (name, PyVal.int x) :: tail)

/-- The body of parse_m620_lines for one line (parse.py lines 13-28):
returns Option.none for a skipped line, otherwise the data key f"N{position}"
(position multiplied by 100) and the params dict. -/
def parse_m620_line_step (line : String) :
    Except PyErr (Option (String × List (String × PyVal))) :=
  if ¬pyStartsWith line "M620" then Except.ok Option.none
  else
    match (pySplit line).drop 1 with
    | [] => Except.error PyErr.valueError  -- `board_addr, *params =` on no tokens
    | board_addr :: params =>
        match pySplitOnChar 'N' board_addr with
        | [_board, position] =>
            match pyInt? position with
            | Option.none => Except.error PyErr.valueError
            | Option.some p =>
                let position100 := p * 100
                match zipFloats m620ParamNames (params.take 8) with
                | Except.error e => Except.error e
                | Except.ok params_dict =>
                    match params.getLast? with
                    | Option.none => Except.error PyErr.indexError  -- params[-1]
                    | Option.some lastTok =>
                        match pyInt? lastTok with
                        | Option.none => Except.error PyErr.valueError
                        | Option.some iv =>
                            Except.ok (Option.some ("N" ++ toString position100,
                              assocSet params_dict "ignore_feedback_pin"
                                (PyVal.bool (iv == 1))))
        | _ => Except.error PyErr.valueError  -- `board, position =` unpack mismatch

/-- The line loop of parse_m620_lines, threading the data dict. -/
def m620Go : List String → List (String × List (String × PyVal)) →
    Except PyErr (List (String × List (String × PyVal)))
  | [], data => Except.ok data
  | line :: rest, data =>
      match parse_m620_line_step line with
      | Except.error e => Except.error e
      | Except.ok Option.none => m620Go rest data
      | Except.ok (Option.some (k, v)) => m620Go rest (assocSet data k v)

/-- parse_m620_lines from parse.py lines 1-29. -/
def parse_m620_lines (lines : List String) :
    Except PyErr (List (String × List (String × PyVal))) :=
  m620Go lines []

/-- The literal position-dump lines of the claim (and of parse.py's own
example usage at lines 32-37). -/
def c5Lines : List String :=
  ["BoardAddr:0",
   "M620 N0 A180 B125 C56 F4 U480 V500 W2500 X1",
   "M620 N1 A180 B125 C56 F4 U480 V500 W2500 X1",
   "ok [BoardAddr:0]"]

/-- The same literal dump as one newline-separated string. -/
def c5Input : String :=
  "BoardAddr:0\nM620 N0 A180 B125 C56 F4 U480 V500 W2500 X1\nM620 N1 A180 B125 C56 F4 U480 V500 W2500 X1\nok [BoardAddr:0]"

/-- The raw position entry that parse_m621_output actually produces for each
M620 line of the literal dump: param_code 'A' and the untyped token list —
not the named numeric fields the claim describes. -/
def c5RawEntry : PosEntry :=
  { param_code := 'A',
    param_value := ["180", "B125", "C56", "F4", "U480", "V500", "W2500", "X1"] }

/-- Feeder from feeder.py, with the underscore prefixes of the private
attributes dropped.  current_angle and enabled are the ephemeral fields the
class never persists. -/
structure Feeder where
  id : PyVal
  model : PyVal
  body_width : PyVal
  tape_width : PyVal
  min_pitch : PyVal
  advance_angle : PyVal
  half_advance_angle : PyVal
  retract_angle : PyVal
  default_feed_length : PyVal
  settle_time : PyVal
  min_pulsewidth : PyVal
  max_pulsewidth : PyVal
  feedback_monitored : PyVal
  current_angle : PyVal
  enabled : PyVal
deriving DecidableEq, Repr

/-- Feeder.__init__ from feeder.py lines 26-62: every parameter defaults to
None; the angle/feed/settle fields are assigned directly and then re-assigned
by the guarded block (same value); min/max pulsewidth start as None and are
overwritten only when the argument is not None; feedback_monitored starts as
False and is overwritten only when the argument is not None; _current_angle
is None and _enabled is False. -/
def Feeder.init (id model body_width tape_width min_pitch advance_angle
    half_advance_angle retract_angle default_feed_length settle_time
    min_pulsewidth max_pulsewidth feedback_monitored : PyVal) : Feeder :=
  { id := id
    model := model
    body_width := body_width
    tape_width := tape_width
    min_pitch := min_pitch
    advance_angle := advance_angle
    half_advance_angle := half_advance_angle
    retract_angle := retract_angle
    default_feed_length := default_feed_length
    settle_time := settle_time
    min_pulsewidth := if min_pulsewidth ≠ PyVal.none then min_pulsewidth else PyVal.none
    max_pulsewidth := if max_pulsewidth ≠ PyVal.none then max_pulsewidth else PyVal.none
    feedback_monitored :=
      if feedback_monitored ≠ PyVal.none then feedback_monitored else PyVal.bool false
    current_angle := PyVal.none
    enabled := PyVal.bool false }

/-- The dictionary Feeder.to_dictionary builds (feeder.py lines 65-70): every
instance attribute except the two ephemeral keys, with leading underscores
stripped from the key names. -/
structure FeederDict where
  id : PyVal
  model : PyVal
  body_width : PyVal
  tape_width : PyVal
  min_pitch : PyVal
  advance_angle : PyVal
  half_advance_angle : PyVal
  retract_angle : PyVal
  default_feed_length : PyVal
  settle_time : PyVal
  min_pulsewidth : PyVal
  max_pulsewidth : PyVal
  feedback_monitored : PyVal
deriving DecidableEq, Repr

/-- Feeder.to_dictionary from feeder.py lines 65-70. -/
def Feeder.to_dictionary (f : Feeder) : FeederDict :=
  { id := f.id
    model := f.model
    body_width := f.body_width
    tape_width := f.tape_width
    min_pitch := f.min_pitch
    advance_angle := f.advance_angle
    half_advance_angle := f.half_advance_angle
    retract_angle := f.retract_angle
    default_feed_length := f.default_feed_length
    settle_time := f.settle_time
    min_pulsewidth := f.min_pulsewidth
    max_pulsewidth := f.max_pulsewidth
    feedback_monitored := f.feedback_monitored }

/-- Feeder.from_dictionary from feeder.py lines 73-77: cls(**data). -/
def Feeder.from_dictionary (d : FeederDict) : Feeder :=
  Feeder.init d.id d.model d.body_width d.tape_width d.min_pitch
    d.advance_angle d.half_advance_angle d.retract_angle
    d.default_feed_length d.settle_time d.min_pulsewidth d.max_pulsewidth
    d.feedback_monitored

/-- Outcome of Feeder.clone_feeder (feeder.py lines 79-99). -/
inductive CloneOutcome where
  /-- Line 82 bound existing_feeder to the tuple (matching feeder, None),
  which `is not None`, so the duplicate warning is logged and the method
  returns None. -/
  | duplicateWarned
  /-- No feeder has the new id, so `next(...)` on line 82 — whose None
  default sits OUTSIDE the call parentheses — raises StopIteration, which
  nothing catches. -/
  | stopIteration
deriving DecidableEq, Repr

/-- Feeder.clone_feeder from feeder.py lines 79-99, with the class-level
singleton cls._feeders passed explicitly.  Because line 82 either returns
early (new id present) or raises StopIteration (new id absent), the clone
construction on lines 87-99 is unreachable, and the registry is returned
unchanged in both cases. -/
def Feeder.clone_feeder (feeders : List Feeder)
    (current_feeder_id new_feeder_id : PyVal) : CloneOutcome × List Feeder :=
  match feeders.find? (fun f => decide (f.id = new_feeder_id)) with
  | Option.some _existing => (CloneOutcome.duplicateWarned, feeders)
  | Option.none => (CloneOutcome.stopIteration, feeders)

/-- Feeder.delete_feeder from feeder.py lines 136-140: it looks up the feeder
(with a None default this time) and then does nothing at all — no removal, no
save, and an implicit return of None. -/
def Feeder.delete_feeder (feeders : List Feeder) (feeder_id : PyVal) :
    PyVal × List Feeder :=
  let feeder_to_delete := feeders.find? (fun f => decide (f.id = feeder_id))
  (PyVal.none, feeders)

/-- Feeder.save_to_json from feeder.py lines 201-215, at the level of the
JSON document written: None when the registry is None/empty (the method logs
"No feeders to save." and returns without writing), otherwise the list of
per-feeder dictionaries. -/
def Feeder.save_to_json (feeders : List Feeder) : Option (List FeederDict) :=
  if feeders.isEmpty then Option.none
  else Option.some (feeders.map Feeder.to_dictionary)

/-- Feeder.load_from_json from feeder.py lines 183-199, given the parsed JSON
document: one from_dictionary per record. -/
def Feeder.load_from_json (feeders_data : List FeederDict) : List Feeder :=
  feeders_data.map Feeder.from_dictionary

/-- A concrete feeder used to exercise clone_feeder and the persistence
round-trip. -/
def feederA : Feeder :=
  Feeder.init (PyVal.str "A") (PyVal.str "CM402") (PyVal.int 12)
    (PyVal.int 8) (PyVal.int 2) (PyVal.int 120) (PyVal.int 60) (PyVal.int 45)
    (PyVal.int 4) (PyVal.int 200) PyVal.none PyVal.none (PyVal.bool true)

/-- A second concrete feeder whose id "B" collides in the duplicate test. -/
def feederB : Feeder :=
  Feeder.init (PyVal.str "B") PyVal.none PyVal.none PyVal.none PyVal.none
    PyVal.none PyVal.none PyVal.none PyVal.none PyVal.none PyVal.none
    PyVal.none PyVal.none

/-- A concrete controller-topology positions map that assigns feeder "F7" to
position "3". -/
def c9Config : List (String × PositionConfig) :=
  [("3", { feeder_id := Option.some (PyVal.str "F7"),
           advance_angle := Option.some (PyVal.int 110) })]

/-- The position FeederBoard.init actually builds from c9Config: feeder_id is
None despite the persisted assignment of "F7". -/
def c9Position : BoardPosition :=
  { current_angle := PyVal.none
    advance_angle := PyVal.int 110
    half_advance_angle := PyVal.int 60
    retract_angle := PyVal.int 45
    default_feed_length := PyVal.int 4
    settle_time := PyVal.int 200
    enabled := false
    feeder_id := PyVal.none }

/-- The board FeederBoard.init actually builds from c9Config. -/
def c9Board : FeederBoard :=
  { positions := [(3, c9Position)] }

/-- Persisting and re-reading a feeder dictionary is the identity whenever
its feedback_monitored entry is not None (every __init__-constructed feeder
satisfies this, since __init__ replaces a None argument by False). -/
theorem to_dictionary_from_dictionary (d : FeederDict)
    (h : d.feedback_monitored ≠ PyVal.none) :
    Feeder.to_dictionary (Feeder.from_dictionary d) = d := by
  obtain ⟨i, m, bw, tw, mp, aa, ha, ra, dl, st, pw1, pw2, fb⟩ := d
  simp only [Feeder.from_dictionary, Feeder.init, Feeder.to_dictionary] at h ⊢
  by_cases h1 : pw1 = PyVal.none <;> by_cases h2 : pw2 = PyVal.none <;>
    simp_all [FeederDict.mk.injEq]

/-- Loading the saved dictionaries reproduces every feeder's non-transient
projection. -/
theorem load_save_dicts (feeders : List Feeder) :
    (∀ f ∈ feeders, f.feedback_monitored ≠ PyVal.none) →
    (Feeder.load_from_json (feeders.map Feeder.to_dictionary)).map Feeder.to_dictionary
      = feeders.map Feeder.to_dictionary := by
  induction feeders with
  | nil => intro _; rfl
  | cons f fs ih =>
      intro hfb
      have hf : (Feeder.to_dictionary f).feedback_monitored ≠ PyVal.none :=
        hfb f (List.mem_cons_self f fs)
      have hrest := ih (fun g hg => hfb g (List.mem_cons_of_mem f hg))
      simp only [List.map_cons, Feeder.load_from_json, List.map_cons] at hrest ⊢
      rw [to_dictionary_from_dictionary (Feeder.to_dictionary f) hf, hrest]

/-- Every position record built by the FeederBoard.__init__ loop has
feeder_id None. -/
theorem feederBoardPositions_feeder_id (entries : List (String × PositionConfig)) :
    ∀ ps, feederBoardPositions entries = Except.ok ps →
      ∀ p ∈ ps, p.2.feeder_id = PyVal.none := by
  induction entries with
  | nil =>
      intro ps h p hp
      simp only [feederBoardPositions] at h
      cases h
      simp at hp
  | cons e rest ih =>
      intro ps h p hp
      obtain ⟨pid, pd⟩ := e
      simp only [feederBoardPositions] at h
      cases hint : pyInt? pid with
      | none => rw [hint] at h; simp at h
      | some n =>
          rw [hint] at h
          cases hrec : feederBoardPositions rest with
          | error e' => rw [hrec] at h; simp [Except.map] at h
          | ok tail =>
              rw [hrec] at h
              simp only [Except.map, Except.ok.injEq] at h
              subst h
              rcases List.mem_cons.mp hp with hp1 | hp2
              · subst hp1; rfl
              · exact ih tail hrec p hp2

/-- C1: the claim says every angle-adjusting call site parses an absolute
instruction and normalizes it.  Feeder.adjust_angle in feeder.py instead
raises an uncaught TypeError on the absolute instruction "90" at current
angle 180 (its absolute branch applies % to the raw string), while the
spec's apply rule yields 90 and the sibling implementation in
feeder_tweaker.py sets the angle to 90 — so the one rule does not hold at
every call site. -/
theorem feeder_adjust_angle_absolute_move_typeerror :
    Feeder.adjust_angle (Option.some 180) "90" = AngleOutcome.typeError ∧
    angleApplySpec 180 "90" = Except.ok 90 ∧
    (adjust_angle ⟨Option.some 180, Option.some "102"⟩ "90" Option.none).1.current_angle
      = Option.some 90 :=
  ⟨rfl, rfl, rfl⟩

/-- C2: the enabled flag transitions to true only after a confirmed "ok",
an "error" response leaves it false, and it is false whenever the disable
command is sent.  All three conditions hold of the code because both cited
operations abort before any command is sent or any flag assigned:
enable_disable_feeders raises NameError on the class-scoped name
handle_ok_response while evaluating the send_command arguments (so the
unconditional assignment after it never runs and, whatever the simulated
response would have been, a false flag stays false), and the
BoardPosition.enabled setter raises AttributeError at self.send_command (so
neither M610S1 nor M610S0 is ever sent).  In every state and for every value,
the flag is returned unchanged: it never becomes true at all, and no disable
command is ever sent. -/
theorem enabled_flag_operations_abort_flag_unchanged :
    (∀ (st : TunerState) (enable : Bool),
      enable_disable_feeders st enable = (Option.some PyErr.nameError, st)) ∧
    (∀ (pos : BoardPosition) (value : PyVal),
      (BoardPosition.enabled_setter pos value).2 = pos) := by
  constructor
  · intro st enable
    unfold enable_disable_feeders
    split <;> rfl
  · intro pos value
    cases value <;> simp [BoardPosition.enabled_setter]

/-- C3: the claim says a failed M603 set-angle command leaves current_angle
unchanged.  adjust_angle in feeder_tweaker.py overwrites the global
_current_angle (180 to 185 on instruction "+5") before send_command runs, for
every transport condition — simulated port, open port (whose inverted
is_open check aborts the send), or closed port (SerialException) — so the
angle changes even though the command never succeeds. -/
theorem adjust_angle_updates_angle_unconditionally :
    ∀ (serial_port : Option Bool),
      ((adjust_angle ⟨Option.some 180, Option.some "102"⟩ "+5" serial_port).1).current_angle
        = Option.some 185 :=
  fun _ => rfl

/-- C4: when readline returns no bytes before the configured timeout (raw
response ""), FeederController.send_command takes the timeout-warning branch
for every command and callback-registration state, and that outcome is never
the confirmed-success classification. -/
theorem send_command_empty_read_yields_timeout :
    ∀ (registered : Bool) (command : String),
      FeederController.send_command true true registered "" command
          = SendOutcome.timeoutWarning ∧
      (FeederController.send_command true true registered "" command).isSuccess = false :=
  fun _ _ => ⟨rfl, rfl⟩

/-- C5: the claim says parsing the literal dump yields one board with two
positions carrying named numeric fields (advance_angle=180 and so on).  On
that exact input parse_m620_lines raises ValueError (it calls float on the
letter-prefixed token "A180"), and parse_m621_output — granting it the
missing `re` module — produces positions holding only the raw pair
param_code='A' / param_value=["180","B125",...], not the named fields. -/
theorem parse_position_dump_literal_eval :
    parse_m620_lines c5Lines = Except.error PyErr.valueError ∧
    parse_m621_output c5Input =
      Except.ok [{ board_id := Option.some 0,
                   positions := Option.some [(0, c5RawEntry), (1, c5RawEntry)] }] :=
  ⟨rfl, rfl⟩

/-- C6: the claim says cloning an existing feeder to a fresh id appends an
identical feeder with the new id.  On the registry [feederA] (id "A"),
clone_feeder("A", "B") instead raises StopIteration — the None default of
next() on feeder.py line 82 sits outside the call — so no clone is ever
created and the registry is unchanged. -/
theorem clone_feeder_fresh_id_raises_stopiteration :
    Feeder.clone_feeder [feederA] (PyVal.str "A") (PyVal.str "B")
      = (CloneOutcome.stopIteration, [feederA]) :=
  rfl

/-- C7: for every registry already containing the new id, clone_feeder logs
the duplicate warning and returns with the registry unchanged; the collision
check runs before the source lookup, so this holds for every
current_feeder_id, present in the registry or not. -/
theorem clone_feeder_duplicate_id_checked_first :
    ∀ (feeders : List Feeder) (current_feeder_id new_feeder_id : PyVal),
      (∃ f ∈ feeders, f.id = new_feeder_id) →
      Feeder.clone_feeder feeders current_feeder_id new_feeder_id
        = (CloneOutcome.duplicateWarned, feeders) := by
  intro feeders cur new h
  rcases h with ⟨f, hf, hid⟩
  cases hfind : feeders.find? (fun g => decide (g.id = new)) with
  | none =>
      rw [List.find?_eq_none] at hfind
      exact absurd (decide_eq_true hid) (by simpa using hfind f hf)
  | some g =>
      simp only [Feeder.clone_feeder]
      rw [hfind]

/-- Witness for C7: cloning "A" onto the occupied id "B" (with no source "A"
in the registry at all) fails as a duplicate and leaves the registry as it
was. -/
theorem clone_feeder_duplicate_id_checked_first_witness :
    Feeder.clone_feeder [feederB] (PyVal.str "A") (PyVal.str "B")
      = (CloneOutcome.duplicateWarned, [feederB]) :=
  clone_feeder_duplicate_id_checked_first [feederB] (PyVal.str "A") (PyVal.str "B")
    ⟨feederB, List.Mem.head _, rfl⟩

/-- C8: saving a non-empty registry writes every feeder's non-transient
dictionary, and loading that document back yields feeders whose
non-transient projections equal the originals (current_angle and enabled are
excluded from both directions).  The feedback_monitored hypothesis holds for
every feeder built by __init__, which replaces a None argument by False. -/
theorem registry_save_load_roundtrip (feeders : List Feeder)
    (hne : feeders ≠ [])
    (hfb : ∀ f ∈ feeders, f.feedback_monitored ≠ PyVal.none) :
    Feeder.save_to_json feeders = Option.some (feeders.map Feeder.to_dictionary) ∧
    (Feeder.load_from_json (feeders.map Feeder.to_dictionary)).map Feeder.to_dictionary
      = feeders.map Feeder.to_dictionary := by
  constructor
  · cases feeders with
    | nil => exact absurd rfl hne
    | cons f fs => rfl
  · exact load_save_dicts feeders hfb

/-- Witness for C8: the singleton registry [feederA] round-trips. -/
theorem registry_save_load_roundtrip_witness :
    Feeder.save_to_json [feederA] = Option.some ([feederA].map Feeder.to_dictionary) ∧
    (Feeder.load_from_json ([feederA].map Feeder.to_dictionary)).map Feeder.to_dictionary
      = [feederA].map Feeder.to_dictionary :=
  registry_save_load_roundtrip [feederA] (List.cons_ne_nil feederA [])
    (by intro f hf; rw [List.mem_singleton] at hf; subst hf; decide)

/-- C9: BoardPosition.__init__ assigns feeder_id = None regardless of the
feeder_id argument, so every position of every successfully loaded board
topology has feeder_id None — persisted feeder assignments are never
restored. -/
theorem board_position_feeder_id_always_none :
    (∀ (advance_angle half_advance_angle retract_angle default_feed_length
        settle_time : PyVal) (enabled : Bool) (feeder_id : PyVal),
      (BoardPosition.init advance_angle half_advance_angle retract_angle
          default_feed_length settle_time enabled feeder_id).feeder_id
        = PyVal.none) ∧
    (∀ (entries : List (String × PositionConfig)) (board : FeederBoard),
      FeederBoard.init entries = Except.ok board →
      ∀ p ∈ board.positions, p.2.feeder_id = PyVal.none) := by
  constructor
  · intro _ _ _ _ _ _ _; rfl
  · intro entries board h p hp
    cases hrec : feederBoardPositions entries with
    | error e =>
        rw [FeederBoard.init, hrec] at h
        simp [Except.map] at h
    | ok ps =>
        rw [FeederBoard.init, hrec] at h
        simp only [Except.map, Except.ok.injEq] at h
        subst h
        exact feederBoardPositions_feeder_id entries ps hrec p hp

/-- Witness for C9: the constructor discards an explicit feeder id "F7", and
loading c9Config — which persists that assignment for position "3" — yields
c9Position with feeder_id None. -/
theorem board_position_feeder_id_always_none_witness :
    (BoardPosition.init (PyVal.int 120) (PyVal.int 60) (PyVal.int 45) (PyVal.int 4)
        (PyVal.int 200) true (PyVal.str "F7")).feeder_id = PyVal.none ∧
    (3, c9Position).2.feeder_id = PyVal.none :=
  ⟨board_position_feeder_id_always_none.1 (PyVal.int 120) (PyVal.int 60)
      (PyVal.int 45) (PyVal.int 4) (PyVal.int 200) true (PyVal.str "F7"),
   board_position_feeder_id_always_none.2 c9Config c9Board rfl
      (3, c9Position) (List.Mem.head _)⟩

/-- C10: delete_feeder looks the feeder up and then does nothing: for every
registry and every feeder_id — existing or not — it returns None and the
registry is completely unchanged. -/
theorem delete_feeder_leaves_registry_unchanged :
    ∀ (feeders : List Feeder) (feeder_id : PyVal),
      Feeder.delete_feeder feeders feeder_id = (PyVal.none, feeders) :=
  fun _ _ => rfl
